import Mathlib

/-!
Verification of the projection and transfer-advisory engine of the
personal cash-flow simulator (`src/simulator.py`).

The embedding models monetary amounts as exact rationals (the spec demands
exact decimal arithmetic), calendar dates as Gregorian `(year, month, day)`
records with day-successor arithmetic (mirroring `datetime.date + timedelta`),
and a transaction ledger as a list of records in source order (a pandas
DataFrame row sequence).
-/

namespace FinanceSim

/-- Gregorian calendar date, mirroring Python `datetime.date`. -/
structure Date where
  year : Nat
  month : Nat
  day : Nat
deriving DecidableEq, Repr

/-- Gregorian leap-year rule, as implemented by Python `datetime`. -/
def isLeapYear (y : Nat) : Bool :=
  (y % 4 == 0 && y % 100 != 0) || (y % 400 == 0)

/-- Number of days in a Gregorian month. -/
def daysInMonth (y m : Nat) : Nat :=
  if m = 2 then (if isLeapYear y then 29 else 28)
  else if m = 4 ∨ m = 6 ∨ m = 9 ∨ m = 11 then 30
  else 31

/-- The next calendar day, mirroring `date + timedelta(days=1)`. -/
def nextDate (d : Date) : Date :=
  if d.day < daysInMonth d.year d.month then ⟨d.year, d.month, d.day + 1⟩
  else if d.month < 12 then ⟨d.year, d.month + 1, 1⟩
  else ⟨d.year + 1, 1, 1⟩

/-- `start_date + timedelta(days=n)`, mirroring `simulator.py` line 33. -/
def addDays (d : Date) : Nat → Date
  | 0 => d
  | n + 1 => nextDate (addDays d n)

/-- A ledger row: `{date, amount, description, category, forecast}`, in the
column layout of `ledger.csv` / the synthetic transaction of
`simulator.py` lines 180-186.  Amounts are the parsed numeric values
(`pd.to_numeric` output), modelled exactly as rationals. -/
structure Tx where
  date : Date
  amount : ℚ
  description : String
  category : String
  forecast : String
deriving DecidableEq, Repr

/-- `alert_type` column values, `simulator.py` lines 64 and 72. -/
inductive AlertType where
  | OK
  | BELOW_TARGET
deriving DecidableEq, Repr

/-- One row of the simulation result DataFrame, `simulator.py` lines 78-85. -/
structure DailyProjection where
  date : Date
  start_balance : ℚ
  transactions_summary : String
  net_change : ℚ
  end_balance : ℚ
  alert_type : AlertType
deriving DecidableEq, Repr

instance : Inhabited DailyProjection :=
  ⟨⟨⟨0, 0, 0⟩, 0, "", 0, 0, AlertType.OK⟩⟩

/-- Python `f"{x:.2f}"` on an exact amount: round to the nearest cent and
print with exactly two decimal digits (sign first). -/
def fmt2 (q : ℚ) : String :=
  let c : ℤ := round (q * 100)
  let sign := if c < 0 then "-" else ""
  let n := c.natAbs
  let cents := n % 100
  sign ++ toString (n / 100) ++ "." ++ (if cents < 10 then "0" else "") ++ toString cents

/-- The transactions whose date equals the current day, in original order:
`transactions_df[transactions_df['date'].dt.date == current_date]`
(`simulator.py` line 40). -/
def dayTx (txs : List Tx) (d : Date) : List Tx :=
  txs.filter fun t => decide (t.date = d)

/-- The net change of a day: `0` if no transaction matches, otherwise the sum
of the matching amounts (`simulator.py` lines 43-51). -/
def dayNetChange (txs : List Tx) (d : Date) : ℚ :=
  if (dayTx txs d).isEmpty then 0
  else ((dayTx txs d).map Tx.amount).sum

/-- The pre-alert summary of a day: empty if no transaction matches, otherwise
`"<description>: <amount:.2f>"` fragments joined by `", "` in selection order
(`simulator.py` lines 45, 54-57). -/
def dayTxSummary (txs : List Tx) (d : Date) : String :=
  if (dayTx txs d).isEmpty then ""
  else String.intercalate ", "
    ((dayTx txs d).map fun t => t.description ++ ": " ++ fmt2 t.amount)

/-- The system note `f"SYSTEM: Add funds ({shortfall:.2f})"`
(`simulator.py` lines 68, 70). -/
def addFundsNote (shortfall : ℚ) : String :=
  "SYSTEM: Add funds (" ++ fmt2 shortfall ++ ")"

/-- One iteration of the day loop of `run_simulation_engine`
(`simulator.py` lines 33-85): computes the projection row for `current_date`
given the running balance `day_start_balance`. -/
def simulateDay (target_balance : ℚ) (txs : List Tx) (current_date : Date)
    (day_start_balance : ℚ) : DailyProjection :=
  let day_net_change := dayNetChange txs current_date
  let base_summary := dayTxSummary txs current_date
  let day_end_balance := day_start_balance + day_net_change
  if day_end_balance < target_balance then
    let shortfall := target_balance - day_end_balance
    { date := current_date
      start_balance := day_start_balance
      transactions_summary :=
        if base_summary = "" then addFundsNote shortfall
        else base_summary ++ ", " ++ addFundsNote shortfall
      net_change := day_net_change
      end_balance := day_end_balance
      alert_type := AlertType.BELOW_TARGET }
  else
    { date := current_date
      start_balance := day_start_balance
      transactions_summary := base_summary
      net_change := day_net_change
      end_balance := day_end_balance
      alert_type := AlertType.OK }

/-- The day loop `for day_offset in range(window_days)` of
`run_simulation_engine`, with `off` the current offset, the running balance
threaded exactly as `current_balance` is (`simulator.py` lines 29-85). -/
def runSimAux (target_balance : ℚ) (txs : List Tx) (start_date : Date) :
    ℚ → Nat → Nat → List DailyProjection
  | _, _, 0 => []
  | bal, off, n + 1 =>
    let p := simulateDay target_balance txs (addDays start_date off) bal
    p :: runSimAux target_balance txs start_date p.end_balance (off + 1) n

/-- `run_simulation_engine` (`simulator.py` lines 8-90).  `window_days` is an
integer as in Python; `range(window_days)` is empty when `window_days ≤ 0`,
which `Int.toNat` reproduces.  The function body contains no `raise`: it
always returns the list of day rows. -/
def run_simulation_engine (start_balance target_balance : ℚ) (txs : List Tx)
    (start_date : Date) (window_days : ℤ) : List DailyProjection :=
  runSimAux target_balance txs start_date start_balance 0 window_days.toNat

/-- `pandas.Series.min` on a list of values; the empty case is never exercised
by any theorem below (the orchestrator always passes at least one value when
it reaches the `min`, and pandas would yield NaN there). -/
def seriesMin : List ℚ → ℚ
  | [] => 0
  | x :: xs => xs.foldl min x

/-- `calculate_intelligent_transfer` (`simulator.py` lines 93-122). -/
def calculate_intelligent_transfer (month_end_balance target_balance : ℚ)
    (future_30_day_balances : List ℚ) : ℚ :=
  let surplus := month_end_balance - target_balance
  if surplus ≤ 0 then 0
  else
    let lowest_future_balance := seriesMin future_30_day_balances
    let shortfall := max 0 (target_balance - lowest_future_balance)
    max 0 (surplus - shortfall)

/-- The `end_balance` values the orchestrator passes to the advisor at scan
index `i`: `sim_results_df.iloc[i+1:i+1+look_ahead_days]['end_balance']` with
`look_ahead_days = min(30, len(sim_results_df) - i - 1)`
(`simulator.py` lines 166-167). -/
def futureBalances (sim : List DailyProjection) (i : Nat) : List ℚ :=
  ((sim.drop (i + 1)).take (min 30 (sim.length - i - 1))).map DailyProjection.end_balance

/-- The synthetic transaction of `simulator.py` lines 180-186. -/
def virtualTx (d : Date) (amt : ℚ) : Tx :=
  { date := d, amount := -amt, description := "Surplus Transfer",
    category := "System", forecast := "1" }

/-- The scan loop `for i in range(len(sim_results_df) - 1)` of
`generate_simulation_report` (`simulator.py` lines 156-197), translated with
explicit fuel (iterations remaining) and scan index `i`.  `amt` is the mutable
`recommended_transfer`, reassigned at every month boundary; the `break` of
line 197 sits inside `if recommended_transfer > 0`, so the branch that injects
returns immediately while a zero recommendation lets the scan continue.  The
third output component instruments the number of executions of the injection
branch (lines 175-197); the source itself carries no such counter. -/
def reportScan (start_balance target_balance : ℚ) (txs : List Tx)
    (start_date : Date) (window_days : ℤ) (sim : List DailyProjection) :
    Nat → Nat → ℚ → List DailyProjection × ℚ × Nat
  | _, 0, amt => (sim, amt, 0)
  | i, fuel + 1, amt =>
    let current_day := (sim.getD i default).date
    let next_day := (sim.getD (i + 1) default).date
    if current_day.month ≠ next_day.month then
      let month_end_balance := (sim.getD i default).end_balance
      let amt2 := calculate_intelligent_transfer month_end_balance target_balance
        (futureBalances sim i)
      if amt2 > 0 then
        let txs2 := txs ++ [virtualTx next_day amt2]
        (run_simulation_engine start_balance target_balance txs2 start_date window_days,
          amt2, 1)
      else
        reportScan start_balance target_balance txs start_date window_days sim
          (i + 1) fuel amt2
    else
      reportScan start_balance target_balance txs start_date window_days sim
        (i + 1) fuel amt

/-- `generate_simulation_report` (`simulator.py` lines 125-199): the initial
simulation, then the month-boundary scan.  Output: the (possibly re-simulated)
result, `recommended_transfer`, and the instrumented injection count. -/
def generate_simulation_report (start_balance target_balance : ℚ) (txs : List Tx)
    (start_date : Date) (window_days : ℤ) : List DailyProjection × ℚ × Nat :=
  let sim := run_simulation_engine start_balance target_balance txs start_date window_days
  reportScan start_balance target_balance txs start_date window_days sim
    0 (sim.length - 1) 0

/-- The advisor call the orchestrator makes at scan index `i`:
`calculate_intelligent_transfer(day[i].end_balance, target, futures)`. -/
def advisorAt (target_balance : ℚ) (sim : List DailyProjection) (i : Nat) : ℚ :=
  calculate_intelligent_transfer (sim.getD i default).end_balance target_balance
    (futureBalances sim i)

/-- Whether the pair `(day[i], day[i+1])` crosses a month boundary:
`current_day.month != next_day.month` (`simulator.py` line 161). -/
def monthBoundary (sim : List DailyProjection) (i : Nat) : Prop :=
  (sim.getD i default).date.month ≠ (sim.getD (i + 1) default).date.month

instance (sim : List DailyProjection) (i : Nat) : Decidable (monthBoundary sim i) :=
  inferInstanceAs (Decidable ((sim.getD i default).date.month ≠ (sim.getD (i + 1) default).date.month))

/-- Stated from the words of the C4 claim, for comparison with the code: the
recommendation computed at the FIRST month boundary of the result, `0` when no
consecutive pair crosses a month boundary. -/
def firstBoundaryRecAux (target_balance : ℚ) (sim : List DailyProjection) :
    Nat → Nat → ℚ
  | _, 0 => 0
  | i, fuel + 1 =>
    if monthBoundary sim i then advisorAt target_balance sim i
    else firstBoundaryRecAux target_balance sim (i + 1) fuel

/-- The C4 claim's recommendation: advisor value at the first month boundary. -/
def firstBoundaryRec (target_balance : ℚ) (sim : List DailyProjection) : ℚ :=
  firstBoundaryRecAux target_balance sim 0 (sim.length - 1)

/-- Stated from the words of the amended C4 claim: the recommendation at the
first month boundary whose advisor recommendation is positive, `0` when every
boundary (or the absence of one) yields a non-positive recommendation. -/
def firstPositiveBoundaryRecAux (target_balance : ℚ) (sim : List DailyProjection) :
    Nat → Nat → ℚ
  | _, 0 => 0
  | i, fuel + 1 =>
    if monthBoundary sim i ∧ 0 < advisorAt target_balance sim i then
      advisorAt target_balance sim i
    else firstPositiveBoundaryRecAux target_balance sim (i + 1) fuel

/-- The amended C4 recommendation: advisor value at the first month boundary
where it is positive. -/
def firstPositiveBoundaryRec (target_balance : ℚ) (sim : List DailyProjection) : ℚ :=
  firstPositiveBoundaryRecAux target_balance sim 0 (sim.length - 1)

/-!
Heap model for the frame claim (C9).  Python DataFrames are mutable objects;
`.copy()` allocates a fresh one and in-place column assignment writes through
the reference.  The store is the list of live transaction-DataFrame objects,
addressed by index; the caller's DataFrame is the object at a given address.
-/

/-- The live transaction DataFrames, addressed by position. -/
abbrev Store := List (List Tx)

/-- Dereference an address (the object a Python variable is bound to). -/
def Store.read (st : Store) (a : Nat) : List Tx :=
  List.getD st a []

/-- `df.copy()` / `pd.DataFrame(...)` / `pd.concat(...)`: allocate a fresh
object, returning the new store and the fresh address. -/
def Store.alloc (st : Store) (o : List Tx) : Store × Nat :=
  (List.append st [o], List.length st)

/-- In-place write through a reference (`df['amount'] = ...`). -/
def Store.write (st : Store) (a : Nat) (o : List Tx) : Store :=
  List.set st a o

/-- The mutation footprint of the day loop of `run_simulation_engine`: each
day with matching transactions runs `day_transactions = day_transactions.copy()`
(line 48, an allocation) and `day_transactions['amount'] = pd.to_numeric(...)`
(line 50, an in-place write through the fresh reference; content-identity here
because amounts are already numeric in the typed model).  The projection rows
themselves are the pure `simulateDay` of the referenced contents. -/
def engineDayLoopHeap (target_balance : ℚ) (aLoc : Nat) :
    Store → ℚ → Date → Nat → Store × List DailyProjection
  | st, _, _, 0 => (st, [])
  | st, bal, d, n + 1 =>
    let txs := Store.read st aLoc
    let day_transactions := dayTx txs d
    let st1 :=
      if day_transactions.isEmpty then st
      else
        let al := Store.alloc st day_transactions
        Store.write al.1 al.2 day_transactions
    let p := simulateDay target_balance txs d bal
    let out := engineDayLoopHeap target_balance aLoc st1 p.end_balance (nextDate d) n
    (out.1, p :: out.2)

/-- `run_simulation_engine` over the object store: line 26 copies the caller's
DataFrame (`transactions_df = transactions_df.copy()`) and the day loop works
through the fresh reference. -/
def run_simulation_engine_heap (st : Store) (a : Nat)
    (start_balance target_balance : ℚ) (start_date : Date) (window_days : ℤ) :
    Store × List DailyProjection :=
  let al := Store.alloc st (Store.read st a)
  engineDayLoopHeap target_balance al.2 al.1 start_balance start_date window_days.toNat

/-- The scan loop of `generate_simulation_report` over the object store: the
injection branch builds the virtual transaction (lines 180-186, an allocation
in itself, content-tracked here inside the concat), allocates the concatenated
DataFrame (`pd.concat`, line 189) and re-runs the engine on it. -/
def reportScanHeap (aCopy : Nat) (start_balance target_balance : ℚ)
    (start_date : Date) (window_days : ℤ) (sim : List DailyProjection) :
    Store → Nat → Nat → ℚ → Store × List DailyProjection × ℚ
  | st, _, 0, amt => (st, sim, amt)
  | st, i, fuel + 1, amt =>
    if monthBoundary sim i then
      let amt2 := advisorAt target_balance sim i
      if amt2 > 0 then
        let next_day := (sim.getD (i + 1) default).date
        let al := Store.alloc st (Store.read st aCopy ++ [virtualTx next_day amt2])
        let out := run_simulation_engine_heap al.1 al.2 start_balance target_balance
          start_date window_days
        (out.1, out.2, amt2)
      else
        reportScanHeap aCopy start_balance target_balance start_date window_days sim
          st (i + 1) fuel amt2
    else
      reportScanHeap aCopy start_balance target_balance start_date window_days sim
        st (i + 1) fuel amt

/-- `generate_simulation_report` over the object store: line 140 copies the
caller's DataFrame, lines 144 and 147 convert its columns in place through the
fresh reference (content-identity in the typed model), then the initial engine
run and the scan loop. -/
def generate_simulation_report_heap (st : Store) (a : Nat)
    (start_balance target_balance : ℚ) (start_date : Date) (window_days : ℤ) :
    Store × List DailyProjection × ℚ :=
  let al := Store.alloc st (Store.read st a)
  let st2 := Store.write al.1 al.2 (Store.read al.1 al.2)
  let run := run_simulation_engine_heap st2 al.2 start_balance target_balance
    start_date window_days
  reportScanHeap al.2 start_balance target_balance start_date window_days run.2
    run.1 0 (run.2.length - 1) 0

/-- The transaction fixture of `tests/test_simulator.py`. -/
def fixtureTxs : List Tx :=
  [⟨⟨2024, 1, 2⟩, -1500, "Rent", "Fixed", "1"⟩,
   ⟨⟨2024, 1, 5⟩, 2500, "Paycheck", "Revenue", "1"⟩,
   ⟨⟨2024, 1, 5⟩, -50, "Spotify", "Variable", "1"⟩,
   ⟨⟨2024, 1, 8⟩, -800, "Car Payment", "Fixed", "1"⟩]

/-- A one-transaction ledger whose window spans two month boundaries: the
first boundary (Jan 31 / Feb 1) carries no surplus, the second (Feb 28 /
Mar 1) does. -/
def cexTxs : List Tx := [⟨⟨2023, 2, 10⟩, 500, "Paycheck", "Revenue", "1"⟩]

/-- Start date of the two-boundary scenario. -/
def cexDate : Date := ⟨2023, 1, 30⟩

/-- The one row produced by a one-day run with no transactions and a start
balance below target. -/
def wProj : DailyProjection :=
  ⟨⟨2024, 1, 1⟩, 0, "SYSTEM: Add funds (1000.00)", 0, 0, AlertType.BELOW_TARGET⟩

/-- A one-object store holding the test-fixture ledger. -/
def wStore : Store := [fixtureTxs]

/-! Helper lemmas about the day computation and the engine loop. -/

theorem simulateDay_date (tb : ℚ) (txs : List Tx) (d : Date) (b : ℚ) :
    (simulateDay tb txs d b).date = d := by
  unfold simulateDay
  dsimp only
  split <;> rfl

theorem simulateDay_start (tb : ℚ) (txs : List Tx) (d : Date) (b : ℚ) :
    (simulateDay tb txs d b).start_balance = b := by
  unfold simulateDay
  dsimp only
  split <;> rfl

theorem simulateDay_net (tb : ℚ) (txs : List Tx) (d : Date) (b : ℚ) :
    (simulateDay tb txs d b).net_change = dayNetChange txs d := by
  unfold simulateDay
  dsimp only
  split <;> rfl

theorem simulateDay_end (tb : ℚ) (txs : List Tx) (d : Date) (b : ℚ) :
    (simulateDay tb txs d b).end_balance = b + dayNetChange txs d := by
  unfold simulateDay
  dsimp only
  split <;> rfl

theorem simulateDay_alert_summary (tb : ℚ) (txs : List Tx) (d : Date) (b : ℚ) :
    ((simulateDay tb txs d b).alert_type = AlertType.BELOW_TARGET ↔
      (simulateDay tb txs d b).end_balance < tb)
    ∧ ((simulateDay tb txs d b).end_balance < tb →
        (simulateDay tb txs d b).transactions_summary =
          (if dayTxSummary txs d = "" then
            addFundsNote (tb - (simulateDay tb txs d b).end_balance)
          else
            dayTxSummary txs d ++ ", " ++
              addFundsNote (tb - (simulateDay tb txs d b).end_balance)))
    ∧ (¬ (simulateDay tb txs d b).end_balance < tb →
        (simulateDay tb txs d b).transactions_summary = dayTxSummary txs d) := by
  unfold simulateDay
  dsimp only
  split
  · rename_i h
    refine ⟨by simpa using h, fun _ => rfl, fun h2 => absurd h h2⟩
  · rename_i h
    refine ⟨by simpa using h, fun h2 => absurd h2 h, fun _ => rfl⟩

theorem runSimAux_length (tb : ℚ) (txs : List Tx) (d0 : Date) :
    ∀ (n : Nat) (bal : ℚ) (off : Nat), (runSimAux tb txs d0 bal off n).length = n := by
  intro n
  induction n with
  | zero => intro bal off; rfl
  | succ n ih =>
    intro bal off
    rw [runSimAux]
    simp [ih]

theorem runSimAux_mem (tb : ℚ) (txs : List Tx) (d0 : Date) :
    ∀ (n : Nat) (bal : ℚ) (off : Nat) (p : DailyProjection),
      p ∈ runSimAux tb txs d0 bal off n → ∃ d b, p = simulateDay tb txs d b := by
  intro n
  induction n with
  | zero => intro bal off p hp; simp [runSimAux] at hp
  | succ n ih =>
    intro bal off p hp
    rw [runSimAux] at hp
    rcases List.mem_cons.mp hp with h | h
    · exact ⟨addDays d0 off, bal, h⟩
    · exact ih _ _ p h

theorem runSimAux_getD_zero_start (tb : ℚ) (txs : List Tx) (d0 : Date)
    (n : Nat) (bal : ℚ) (off : Nat) (hn : 0 < n) :
    ((runSimAux tb txs d0 bal off n).getD 0 default).start_balance = bal := by
  cases n with
  | zero => exact absurd hn (by simp)
  | succ n =>
    rw [runSimAux]
    simp [simulateDay_start]

theorem runSimAux_getD_date (tb : ℚ) (txs : List Tx) (d0 : Date) :
    ∀ (n : Nat) (bal : ℚ) (off i : Nat), i < n →
      ((runSimAux tb txs d0 bal off n).getD i default).date = addDays d0 (off + i) := by
  intro n
  induction n with
  | zero => intro bal off i hi; exact absurd hi (by simp)
  | succ n ih =>
    intro bal off i hi
    rw [runSimAux]
    cases i with
    | zero => simp [simulateDay_date]
    | succ i =>
      rw [List.getD_cons_succ]
      rw [ih _ (off + 1) i (by omega)]
      congr 1
      omega

theorem runSimAux_chain (tb : ℚ) (txs : List Tx) (d0 : Date) :
    ∀ (n : Nat) (bal : ℚ) (off i : Nat), i + 1 < n →
      ((runSimAux tb txs d0 bal off n).getD (i + 1) default).start_balance =
        ((runSimAux tb txs d0 bal off n).getD i default).end_balance := by
  intro n
  induction n with
  | zero => intro bal off i hi; exact absurd hi (by simp)
  | succ n ih =>
    intro bal off i hi
    rw [runSimAux]
    cases i with
    | zero =>
      rw [List.getD_cons_succ, List.getD_cons_zero]
      exact runSimAux_getD_zero_start tb txs d0 n _ (off + 1) (by omega)
    | succ i =>
      rw [List.getD_cons_succ, List.getD_cons_succ]
      exact ih _ (off + 1) i (by omega)

theorem foldl_min_le_init : ∀ (xs : List ℚ) (a : ℚ), xs.foldl min a ≤ a := by
  intro xs
  induction xs with
  | nil => intro a; simp
  | cons x xs ih =>
    intro a
    rw [List.foldl_cons]
    exact le_trans (ih (min a x)) (min_le_left a x)

theorem foldl_min_le_mem : ∀ (xs : List ℚ) (a x : ℚ), x ∈ xs → xs.foldl min a ≤ x := by
  intro xs
  induction xs with
  | nil => intro a x hx; simp at hx
  | cons y ys ih =>
    intro a x hx
    rw [List.foldl_cons]
    rcases List.mem_cons.mp hx with h | h
    · exact le_trans (foldl_min_le_init ys (min a y)) (h ▸ min_le_right a y)
    · exact ih (min a y) x h

theorem foldl_min_mem : ∀ (xs : List ℚ) (a : ℚ), xs.foldl min a = a ∨ xs.foldl min a ∈ xs := by
  intro xs
  induction xs with
  | nil => intro a; left; rfl
  | cons y ys ih =>
    intro a
    rcases ih (min a y) with h | h
    · rw [List.foldl_cons, h]
      rcases min_choice a y with h2 | h2
      · left; exact h2
      · right; rw [h2]; exact List.mem_cons_self y ys
    · right
      rw [List.foldl_cons]
      exact List.mem_cons_of_mem y h

/-- `seriesMin` computes the minimum: it is a lower bound of the list. -/
theorem seriesMin_le (fb : List ℚ) (x : ℚ) (hx : x ∈ fb) : seriesMin fb ≤ x := by
  cases fb with
  | nil => simp at hx
  | cons y ys =>
    rcases List.mem_cons.mp hx with h | h
    · exact h ▸ foldl_min_le_init ys y
    · exact foldl_min_le_mem ys y x h

/-- `seriesMin` computes the minimum: it is attained by an element. -/
theorem seriesMin_mem (fb : List ℚ) (h : fb ≠ []) : seriesMin fb ∈ fb := by
  cases fb with
  | nil => exact absurd rfl h
  | cons y ys =>
    rcases foldl_min_mem ys y with h2 | h2
    · rw [seriesMin, h2]; exact List.mem_cons_self y ys
    · rw [seriesMin]; exact List.mem_cons_of_mem y h2

/-- The advisor never recommends a negative amount. -/
theorem calculate_intelligent_transfer_nonneg (meb tb : ℚ) (fb : List ℚ) :
    0 ≤ calculate_intelligent_transfer meb tb fb := by
  unfold calculate_intelligent_transfer
  dsimp only
  split
  · exact le_refl 0
  · exact le_max_left 0 _

/-- The scan loop performs the injection branch at most once, and the result
it returns is either the scanned result untouched (no injection) or the
re-simulation over the ledger extended by the one synthetic transaction. -/
theorem reportScan_shape (sb tb : ℚ) (txs : List Tx) (d0 : Date) (wd : ℤ)
    (sim : List DailyProjection) :
    ∀ (fuel i : Nat) (amt : ℚ),
      ((reportScan sb tb txs d0 wd sim i fuel amt).2.2 = 0
        ∧ (reportScan sb tb txs d0 wd sim i fuel amt).1 = sim)
      ∨ ((reportScan sb tb txs d0 wd sim i fuel amt).2.2 = 1
        ∧ 0 < (reportScan sb tb txs d0 wd sim i fuel amt).2.1
        ∧ ∃ v : Tx, v.description = "Surplus Transfer" ∧ v.category = "System"
          ∧ (reportScan sb tb txs d0 wd sim i fuel amt).1 =
              run_simulation_engine sb tb (txs ++ [v]) d0 wd) := by
  intro fuel
  induction fuel with
  | zero => intro i amt; left; exact ⟨rfl, rfl⟩
  | succ fuel ih =>
    intro i amt
    rw [reportScan]
    dsimp only
    split
    · split
      · rename_i hpos
        right
        exact ⟨rfl, hpos, virtualTx (sim.getD (i + 1) default).date _,
          rfl, rfl, rfl⟩
      · exact ih (i + 1) _
    · exact ih (i + 1) amt

/-- When the running recommendation is `0`, the scan loop returns the
recommendation of the first month boundary at or after `i` whose advisor
recommendation is positive. -/
theorem reportScan_rec_firstPos (sb tb : ℚ) (txs : List Tx) (d0 : Date) (wd : ℤ)
    (sim : List DailyProjection) :
    ∀ (fuel i : Nat),
      (reportScan sb tb txs d0 wd sim i fuel 0).2.1 =
        firstPositiveBoundaryRecAux tb sim i fuel := by
  intro fuel
  induction fuel with
  | zero => intro i; rfl
  | succ fuel ih =>
    intro i
    rw [reportScan, firstPositiveBoundaryRecAux]
    dsimp only
    by_cases hb : (sim.getD i default).date.month ≠ (sim.getD (i + 1) default).date.month
    · rw [if_pos hb]
      by_cases hpos : 0 <
          calculate_intelligent_transfer (sim.getD i default).end_balance tb
            (futureBalances sim i)
      · rw [if_pos (by simpa [GT.gt] using hpos),
          if_pos (⟨hb, by simpa [advisorAt] using hpos⟩ :
            monthBoundary sim i ∧ 0 < advisorAt tb sim i)]
        simp [advisorAt]
      · have hz : calculate_intelligent_transfer (sim.getD i default).end_balance tb
            (futureBalances sim i) = 0 :=
          le_antisymm (not_lt.mp hpos) (calculate_intelligent_transfer_nonneg _ _ _)
        rw [if_neg (by simpa [GT.gt] using hpos), hz,
          if_neg (fun hc => hpos (by simpa [advisorAt] using hc.2))]
        exact ih (i + 1)
    · rw [if_neg hb,
        if_neg (fun hc : monthBoundary sim i ∧ _ => hb hc.1)]
      exact ih (i + 1)

theorem store_read_alloc (st : Store) (o : List Tx) (b : Nat) (hb : b < List.length st) :
    Store.read (Store.alloc st o).1 b = Store.read st b := by
  unfold Store.read Store.alloc
  exact List.getD_append st [o] [] b hb

theorem store_read_write_ne (st : Store) (a b : Nat) (o : List Tx) (h : a ≠ b) :
    Store.read (Store.write st a o) b = Store.read st b := by
  unfold Store.read Store.write
  rw [List.getD_eq_getElem?_getD, List.getD_eq_getElem?_getD, List.getElem?_set_ne h]

theorem store_length_alloc (st : Store) (o : List Tx) :
    List.length (Store.alloc st o).1 = List.length st + 1 := by
  unfold Store.alloc
  simp

theorem store_length_write (st : Store) (a : Nat) (o : List Tx) :
    List.length (Store.write st a o) = List.length st :=
  List.length_set st a o

/-- The day loop only allocates fresh objects and writes through fresh
references: every pre-existing object survives unchanged and the store only
grows. -/
theorem engineDayLoopHeap_frame (tb : ℚ) (aLoc : Nat) :
    ∀ (n : Nat) (st : Store) (bal : ℚ) (d : Date),
      List.length st ≤ List.length (engineDayLoopHeap tb aLoc st bal d n).1
      ∧ ∀ b, b < List.length st →
          Store.read (engineDayLoopHeap tb aLoc st bal d n).1 b = Store.read st b := by
  intro n
  induction n with
  | zero => intro st bal d; exact ⟨le_refl _, fun b _ => rfl⟩
  | succ n ih =>
    intro st bal d
    rw [engineDayLoopHeap]
    dsimp only
    split
    · exact ih st _ _
    · rename_i hne
      set dayT := dayTx (Store.read st aLoc) d with hdayT
      have hlen1 : List.length (Store.write (Store.alloc st dayT).1
          (Store.alloc st dayT).2 dayT) = List.length st + 1 := by
        rw [store_length_write, store_length_alloc]
      have hread1 : ∀ b, b < List.length st →
          Store.read (Store.write (Store.alloc st dayT).1
            (Store.alloc st dayT).2 dayT) b = Store.read st b := by
        intro b hb
        rw [store_read_write_ne _ _ _ _ (by show List.length st ≠ b; omega),
          store_read_alloc st dayT b hb]
      obtain ⟨hl, hr⟩ := ih (Store.write (Store.alloc st dayT).1
        (Store.alloc st dayT).2 dayT)
        (simulateDay tb (Store.read st aLoc) d bal).end_balance (nextDate d)
      refine ⟨by omega, fun b hb => ?_⟩
      rw [hr b (by omega), hread1 b hb]

/-- `run_simulation_engine` over the store: the caller's objects are
untouched. -/
theorem run_simulation_engine_heap_frame (st : Store) (a : Nat) (sb tb : ℚ)
    (d0 : Date) (wd : ℤ) :
    List.length st ≤ List.length (run_simulation_engine_heap st a sb tb d0 wd).1
    ∧ ∀ b, b < List.length st →
        Store.read (run_simulation_engine_heap st a sb tb d0 wd).1 b = Store.read st b := by
  unfold run_simulation_engine_heap
  dsimp only
  obtain ⟨hl, hr⟩ := engineDayLoopHeap_frame tb (Store.alloc st (Store.read st a)).2
    wd.toNat (Store.alloc st (Store.read st a)).1 sb d0
  have hla := store_length_alloc st (Store.read st a)
  refine ⟨by omega, fun b hb => ?_⟩
  rw [hr b (by omega), store_read_alloc st _ b hb]

/-- The scan loop over the store: the caller's objects are untouched. -/
theorem reportScanHeap_frame (aCopy : Nat) (sb tb : ℚ) (d0 : Date) (wd : ℤ)
    (sim : List DailyProjection) :
    ∀ (fuel : Nat) (st : Store) (i : Nat) (amt : ℚ),
      List.length st ≤
        List.length (reportScanHeap aCopy sb tb d0 wd sim st i fuel amt).1
      ∧ ∀ b, b < List.length st →
          Store.read (reportScanHeap aCopy sb tb d0 wd sim st i fuel amt).1 b =
            Store.read st b := by
  intro fuel
  induction fuel with
  | zero => intro st i amt; exact ⟨le_refl _, fun b _ => rfl⟩
  | succ fuel ih =>
    intro st i amt
    rw [reportScanHeap]
    dsimp only
    split
    · split
      · dsimp only
        set o := Store.read st aCopy ++
          [virtualTx (sim.getD (i + 1) default).date
            (advisorAt tb sim i)] with ho
        obtain ⟨hl, hr⟩ := run_simulation_engine_heap_frame (Store.alloc st o).1
          (Store.alloc st o).2 sb tb d0 wd
        have hla := store_length_alloc st o
        refine ⟨by omega, fun b hb => ?_⟩
        rw [hr b (by omega), store_read_alloc st o b hb]
      · exact ih st (i + 1) _
    · exact ih st (i + 1) amt

/-- The orchestrator over the store: the caller's objects are untouched. -/
theorem generate_simulation_report_heap_frame (st : Store) (a : Nat)
    (sb tb : ℚ) (d0 : Date) (wd : ℤ) :
    List.length st ≤
      List.length (generate_simulation_report_heap st a sb tb d0 wd).1
    ∧ ∀ b, b < List.length st →
        Store.read (generate_simulation_report_heap st a sb tb d0 wd).1 b =
          Store.read st b := by
  unfold generate_simulation_report_heap
  dsimp only
  set o := Store.read st a with ho
  set st2 := Store.write (Store.alloc st o).1 (Store.alloc st o).2
    (Store.read (Store.alloc st o).1 (Store.alloc st o).2) with hst2
  have hlen2 : List.length st2 = List.length st + 1 := by
    rw [hst2, store_length_write, store_length_alloc]
  have hread2 : ∀ b, b < List.length st → Store.read st2 b = Store.read st b := by
    intro b hb
    rw [hst2, store_read_write_ne _ _ _ _ (by show List.length st ≠ b; omega),
      store_read_alloc st o b hb]
  obtain ⟨hl3, hr3⟩ := run_simulation_engine_heap_frame st2 (Store.alloc st o).2
    sb tb d0 wd
  obtain ⟨hl4, hr4⟩ := reportScanHeap_frame (Store.alloc st o).2 sb tb d0 wd
    (run_simulation_engine_heap st2 (Store.alloc st o).2 sb tb d0 wd).2
    ((run_simulation_engine_heap st2 (Store.alloc st o).2 sb tb d0 wd).2.length - 1)
    (run_simulation_engine_heap st2 (Store.alloc st o).2 sb tb d0 wd).1 0 0
  refine ⟨by omega, fun b hb => ?_⟩
  rw [hr4 b (by omega), hr3 b (by omega), hread2 b hb]

/-! The claims. -/

set_option maxRecDepth 100000

/-- C1: for every `month_end_balance`, `target_balance` and non-empty
`future_balances`, the advisor returns `0` when
`surplus = month_end_balance - target_balance` is `≤ 0`, and otherwise
`max(0, surplus - max(0, target_balance - min(future_balances)))`; in
particular the result can be `0` even when the surplus is positive. -/
theorem claim_C1 :
    (∀ (meb tb : ℚ) (fb : List ℚ), fb ≠ [] →
      calculate_intelligent_transfer meb tb fb =
        if meb - tb ≤ 0 then 0
        else max 0 ((meb - tb) - max 0 (tb - seriesMin fb)))
    ∧ (∃ (meb tb : ℚ) (fb : List ℚ), fb ≠ [] ∧ 0 < meb - tb ∧
        calculate_intelligent_transfer meb tb fb = 0) := by
  constructor
  · intro meb tb fb _
    rfl
  · exact ⟨3000, 2500, [1500], by simp, by norm_num, by with_unfolding_all decide⟩

/-- C1 witness: the advisor formula instantiated at the full-surplus test
scenario (`month_end_balance = 5000`, `target = 2500`, future minimum
`3000`). -/
theorem claim_C1_witness :
    ([3000] : List ℚ) ≠ [] ∧
      calculate_intelligent_transfer 5000 2500 [3000] =
        if (5000 : ℚ) - 2500 ≤ 0 then 0
        else max 0 (((5000 : ℚ) - 2500) - max 0 (2500 - seriesMin [3000])) :=
  ⟨by simp, claim_C1.1 5000 2500 [3000] (by simp)⟩

/-- C2: for every simulation run with positive `window_days` the balances
chain with no gaps: `result[0].start_balance` is the given start balance and
`result[i+1].start_balance = result[i].end_balance` for every in-range `i`. -/
theorem claim_C2 (sb tb : ℚ) (txs : List Tx) (d0 : Date) (wd : ℤ) (hwd : 0 < wd) :
    ((run_simulation_engine sb tb txs d0 wd).getD 0 default).start_balance = sb
    ∧ ∀ i : Nat, i + 1 < (run_simulation_engine sb tb txs d0 wd).length →
        ((run_simulation_engine sb tb txs d0 wd).getD (i + 1) default).start_balance =
          ((run_simulation_engine sb tb txs d0 wd).getD i default).end_balance := by
  constructor
  · exact runSimAux_getD_zero_start tb txs d0 wd.toNat sb 0 (by omega)
  · intro i hi
    have hlen : (run_simulation_engine sb tb txs d0 wd).length = wd.toNat :=
      runSimAux_length tb txs d0 wd.toNat sb 0
    rw [hlen] at hi
    exact runSimAux_chain tb txs d0 wd.toNat sb 0 i hi

/-- C2 witness: balance chaining at the ten-day test fixture. -/
theorem claim_C2_witness :
    (0 : ℤ) < 10 ∧
      ((run_simulation_engine 2000 1000 fixtureTxs ⟨2024, 1, 1⟩ 10).getD 0
        default).start_balance = 2000 :=
  ⟨by decide, (claim_C2 2000 1000 fixtureTxs ⟨2024, 1, 1⟩ 10 (by decide)).1⟩

/-- C3: for every day of a simulation result, `alert_type` is `BELOW_TARGET`
iff `end_balance < target_balance`; exactly when the alert fires the summary
carries the suffix `SYSTEM: Add funds (<shortfall to two decimals>)` with
`shortfall = target_balance - end_balance`, appended after a comma when the
day summary is non-empty and standing alone otherwise; with no alert no
suffix is added. -/
theorem claim_C3 (sb tb : ℚ) (txs : List Tx) (d0 : Date) (wd : ℤ)
    (p : DailyProjection) (hp : p ∈ run_simulation_engine sb tb txs d0 wd) :
    (p.alert_type = AlertType.BELOW_TARGET ↔ p.end_balance < tb)
    ∧ (p.end_balance < tb →
        p.transactions_summary =
          (if dayTxSummary txs p.date = "" then addFundsNote (tb - p.end_balance)
           else dayTxSummary txs p.date ++ ", " ++ addFundsNote (tb - p.end_balance)))
    ∧ (¬ p.end_balance < tb → p.transactions_summary = dayTxSummary txs p.date) := by
  obtain ⟨d, b, rfl⟩ := runSimAux_mem tb txs d0 wd.toNat sb 0 p hp
  rw [simulateDay_date]
  exact simulateDay_alert_summary tb txs d b

/-- C3 witness: the one-day empty-ledger run below target produces the
below-target alert row. -/
theorem claim_C3_witness :
    wProj ∈ run_simulation_engine 0 1000 [] ⟨2024, 1, 1⟩ 1
    ∧ (wProj.alert_type = AlertType.BELOW_TARGET ↔ wProj.end_balance < 1000) :=
  ⟨by with_unfolding_all decide,
   (claim_C3 0 1000 [] ⟨2024, 1, 1⟩ 1 wProj (by with_unfolding_all decide)).1⟩

/-- C4 counterexample: over the window `2023-01-30 + 35` days with one
`+500` paycheck on Feb 10 and `start = target = 1000`, the first month
boundary (Jan 31 / Feb 1) yields recommendation `0`, yet the orchestrator
returns `500`, the recommendation of the second boundary (Feb 28 / Mar 1) —
contradicting the claim that the returned recommendation is the one computed
at the first month boundary and that the scan stops there. -/
theorem claim_C4_counterexample :
    (generate_simulation_report 1000 1000 cexTxs cexDate 35).2.1 ≠
      firstBoundaryRec 1000 (run_simulation_engine 1000 1000 cexTxs cexDate 35) := by
  with_unfolding_all decide

/-- C4 (amended): the returned recommendation is the advisor's recommendation
at the first month boundary of the initial simulation whose recommendation is
positive (computed from `day[i].end_balance` and the end balances of the
following `min(30, window remainder)` days); when no boundary yields a
positive recommendation the recommendation is `0` and the initial result is
returned unchanged. -/
theorem claim_C4 (sb tb : ℚ) (txs : List Tx) (d0 : Date) (wd : ℤ) :
    (generate_simulation_report sb tb txs d0 wd).2.1 =
      firstPositiveBoundaryRec tb (run_simulation_engine sb tb txs d0 wd)
    ∧ ((generate_simulation_report sb tb txs d0 wd).2.1 = 0 →
        (generate_simulation_report sb tb txs d0 wd).1 =
          run_simulation_engine sb tb txs d0 wd) := by
  constructor
  · exact reportScan_rec_firstPos sb tb txs d0 wd
      (run_simulation_engine sb tb txs d0 wd)
      ((run_simulation_engine sb tb txs d0 wd).length - 1) 0
  · intro h0
    rcases reportScan_shape sb tb txs d0 wd (run_simulation_engine sb tb txs d0 wd)
        ((run_simulation_engine sb tb txs d0 wd).length - 1) 0 0 with
      ⟨_, hres⟩ | ⟨_, hpos, _⟩
    · exact hres
    · exact absurd h0 (ne_of_gt hpos)

/-- C4 witness: a two-day window with no month boundary returns the initial
result with recommendation `0`. -/
theorem claim_C4_witness :
    (generate_simulation_report 5 7 [] ⟨2024, 1, 1⟩ 2).2.1 =
      firstPositiveBoundaryRec 7 (run_simulation_engine 5 7 [] ⟨2024, 1, 1⟩ 2)
    ∧ (generate_simulation_report 5 7 [] ⟨2024, 1, 1⟩ 2).1 =
        run_simulation_engine 5 7 [] ⟨2024, 1, 1⟩ 2 :=
  ⟨(claim_C4 5 7 [] ⟨2024, 1, 1⟩ 2).1,
   (claim_C4 5 7 [] ⟨2024, 1, 1⟩ 2).2 (by with_unfolding_all decide)⟩

/-- C5: per orchestrator call the injection branch runs at most once; with no
injection the scanned result is returned untouched, and with one injection the
returned result is the single re-run of the engine over the ledger extended by
exactly one synthetic `Surplus Transfer` transaction. -/
theorem claim_C5 (sb tb : ℚ) (txs : List Tx) (d0 : Date) (wd : ℤ) :
    (generate_simulation_report sb tb txs d0 wd).2.2 ≤ 1
    ∧ ((generate_simulation_report sb tb txs d0 wd).2.2 = 0 →
        (generate_simulation_report sb tb txs d0 wd).1 =
          run_simulation_engine sb tb txs d0 wd)
    ∧ ((generate_simulation_report sb tb txs d0 wd).2.2 = 1 →
        ∃ v : Tx, v.description = "Surplus Transfer" ∧ v.category = "System"
          ∧ (generate_simulation_report sb tb txs d0 wd).1 =
              run_simulation_engine sb tb (txs ++ [v]) d0 wd) := by
  have hg : generate_simulation_report sb tb txs d0 wd =
      reportScan sb tb txs d0 wd (run_simulation_engine sb tb txs d0 wd) 0
        ((run_simulation_engine sb tb txs d0 wd).length - 1) 0 := rfl
  rw [hg]
  rcases reportScan_shape sb tb txs d0 wd (run_simulation_engine sb tb txs d0 wd)
      ((run_simulation_engine sb tb txs d0 wd).length - 1) 0 0 with
    ⟨h0, hres⟩ | ⟨h1, hpos, v, hv1, hv2, hres⟩
  · exact ⟨by omega, fun _ => hres, fun hc => absurd hc (by omega)⟩
  · exact ⟨by omega, fun hc => absurd hc (by omega), fun _ => ⟨v, hv1, hv2, hres⟩⟩

/-- C5 witness: a one-day window performs no injection and returns the
initial result. -/
theorem claim_C5_witness :
    (generate_simulation_report 0 0 [] ⟨2024, 1, 1⟩ 1).2.2 ≤ 1
    ∧ (generate_simulation_report 0 0 [] ⟨2024, 1, 1⟩ 1).1 =
        run_simulation_engine 0 0 [] ⟨2024, 1, 1⟩ 1 :=
  ⟨(claim_C5 0 0 [] ⟨2024, 1, 1⟩ 1).1,
   (claim_C5 0 0 [] ⟨2024, 1, 1⟩ 1).2.1 rfl⟩

/-- C6 counterexample: called with `window_days = -5` (and with `0`), the
engine returns normally with the empty result.  The source of
`run_simulation_engine` contains no `raise`: `range(window_days)` is simply
empty, so no `ValidationError` is raised, contradicting the claim. -/
theorem claim_C6_counterexample :
    run_simulation_engine 0 0 [] ⟨2024, 1, 1⟩ (-5) = []
    ∧ run_simulation_engine 0 0 [] ⟨2024, 1, 1⟩ 0 = [] :=
  ⟨rfl, rfl⟩

/-- C6 (amended): with `window_days ≤ 0` the engine raises nothing and
computes no simulation day: it returns the empty result (so in particular no
partial result). -/
theorem claim_C6 (sb tb : ℚ) (txs : List Tx) (d0 : Date) (wd : ℤ) (hwd : wd ≤ 0) :
    run_simulation_engine sb tb txs d0 wd = [] := by
  unfold run_simulation_engine
  have h0 : wd.toNat = 0 := by omega
  rw [h0, runSimAux]

/-- C6 witness: the amended claim at `window_days = -5`. -/
theorem claim_C6_witness :
    (-5 : ℤ) ≤ 0 ∧ run_simulation_engine 1 2 [] ⟨2024, 1, 1⟩ (-5) = [] :=
  ⟨by decide, claim_C6 1 2 [] ⟨2024, 1, 1⟩ (-5) (by decide)⟩

/-- C7: every day of a simulation result satisfies
`end_balance = start_balance + net_change`, where `net_change` is `0` on a
day with no matching transactions and otherwise the sum of that day's
transaction amounts. -/
theorem claim_C7 (sb tb : ℚ) (txs : List Tx) (d0 : Date) (wd : ℤ)
    (p : DailyProjection) (hp : p ∈ run_simulation_engine sb tb txs d0 wd) :
    p.end_balance = p.start_balance + p.net_change
    ∧ p.net_change =
        (if dayTx txs p.date = [] then 0
         else ((dayTx txs p.date).map Tx.amount).sum) := by
  obtain ⟨d, b, rfl⟩ := runSimAux_mem tb txs d0 wd.toNat sb 0 p hp
  rw [simulateDay_date]
  constructor
  · rw [simulateDay_end, simulateDay_start, simulateDay_net]
  · rw [simulateDay_net]
    unfold dayNetChange
    rcases h : dayTx txs d with _ | ⟨x, xs⟩ <;> simp [h]

/-- C7 witness: arithmetic closure on the first day of the test fixture. -/
theorem claim_C7_witness :
    (⟨⟨2024, 1, 1⟩, 2000, "", 0, 2000, AlertType.OK⟩ : DailyProjection) ∈
      run_simulation_engine 2000 1000 fixtureTxs ⟨2024, 1, 1⟩ 1
    ∧ (⟨⟨2024, 1, 1⟩, 2000, "", 0, 2000, AlertType.OK⟩ :
        DailyProjection).end_balance =
      (⟨⟨2024, 1, 1⟩, 2000, "", 0, 2000, AlertType.OK⟩ :
        DailyProjection).start_balance +
      (⟨⟨2024, 1, 1⟩, 2000, "", 0, 2000, AlertType.OK⟩ :
        DailyProjection).net_change :=
  ⟨by with_unfolding_all decide,
   (claim_C7 2000 1000 fixtureTxs ⟨2024, 1, 1⟩ 1 _ (by with_unfolding_all decide)).1⟩

/-- C8: for positive `window_days` the result has exactly `window_days`
entries and entry `i` is dated `start_date + i` days — contiguous, ordered,
none skipped, none duplicated. -/
theorem claim_C8 (sb tb : ℚ) (txs : List Tx) (d0 : Date) (wd : ℤ) (hwd : 0 < wd) :
    ((run_simulation_engine sb tb txs d0 wd).length : ℤ) = wd
    ∧ ∀ i : Nat, i < (run_simulation_engine sb tb txs d0 wd).length →
        ((run_simulation_engine sb tb txs d0 wd).getD i default).date =
          addDays d0 i := by
  have hlen : (run_simulation_engine sb tb txs d0 wd).length = wd.toNat :=
    runSimAux_length tb txs d0 wd.toNat sb 0
  constructor
  · rw [hlen]; omega
  · intro i hi
    rw [hlen] at hi
    have h := runSimAux_getD_date tb txs d0 wd.toNat sb 0 i hi
    rwa [Nat.zero_add] at h

/-- C8 witness: the ten-day test fixture yields exactly ten days. -/
theorem claim_C8_witness :
    (0 : ℤ) < 10 ∧
      ((run_simulation_engine 2000 1000 fixtureTxs ⟨2024, 1, 1⟩ 10).length : ℤ) = 10 :=
  ⟨by decide, (claim_C8 2000 1000 fixtureTxs ⟨2024, 1, 1⟩ 10 (by decide)).1⟩

/-- C9: neither the engine nor the orchestrator mutates the caller's
transaction object: in the object-store model every pre-existing object —
in particular the caller's DataFrame — reads back unchanged after either
call; the synthetic transaction only ever lands in freshly allocated private
copies. -/
theorem claim_C9 (st : Store) (a : Nat) (sb tb : ℚ) (d0 : Date) (wd : ℤ)
    (b : Nat) (hb : b < List.length st) :
    Store.read (run_simulation_engine_heap st a sb tb d0 wd).1 b = Store.read st b
    ∧ Store.read (generate_simulation_report_heap st a sb tb d0 wd).1 b =
        Store.read st b :=
  ⟨(run_simulation_engine_heap_frame st a sb tb d0 wd).2 b hb,
   (generate_simulation_report_heap_frame st a sb tb d0 wd).2 b hb⟩

/-- C9 witness: the fixture store object is unchanged by an engine call. -/
theorem claim_C9_witness :
    0 < List.length wStore
    ∧ Store.read (run_simulation_engine_heap wStore 0 2000 1000 ⟨2024, 1, 1⟩ 3).1 0 =
        Store.read wStore 0 :=
  ⟨by decide, (claim_C9 wStore 0 2000 1000 ⟨2024, 1, 1⟩ 3 0 (by decide)).1⟩

/-- C10: whenever `month_end_balance ≤ target_balance` the advisor returns
exactly `0` for every `future_balances` — including the empty one — so the
minimum of the future balances plays no role when there is no surplus. -/
theorem claim_C10 (meb tb : ℚ) (fb : List ℚ) (h : meb ≤ tb) :
    calculate_intelligent_transfer meb tb fb = 0 := by
  unfold calculate_intelligent_transfer
  dsimp only
  rw [if_pos (sub_nonpos.mpr h)]

/-- C10 witness: the no-surplus case with empty future balances. -/
theorem claim_C10_witness :
    (2000 : ℚ) ≤ 2500 ∧ calculate_intelligent_transfer 2000 2500 [] = 0 :=
  ⟨by norm_num, claim_C10 2000 2500 [] (by norm_num)⟩

end FinanceSim
